import Mathlib

/-!
Verification of the mlflow-operator charm reconciliation logic
(src/charms/mlflow-server/src/charm.py), shallowly embedded in Lean.

The charm is a single reconciliation pass: `Operator.main` reads leadership,
configuration, relation data and the OCI image resource, and either sets a
failure status or publishes ingress routing data and submits a pod spec.
All Python dictionaries carrying relation data are modelled as association
lists; a missing key surfaces as an `Except.error` carrying the KeyError,
mirroring the exception the interpreter would raise.
-/

/-- The status taxonomy of the orchestration platform (ops.model).  The
charm imports Active/Blocked/Maintenance/Waiting; the platform also has
Unknown and Error statuses which the charm never constructs. -/
inductive StatusKind
  | waiting
  | blocked
  | maintenance
  | active
  | unknown
  | error
  deriving DecidableEq, Repr

/-- A unit status as reported to the platform: a kind plus a message. -/
structure Status where
  kind : StatusKind
  msg : String
  deriving DecidableEq, Repr

/-- Models `CheckFailedError(msg, status_type)`: the exception raised by the
individual checks in `main`, carrying a message and a status class. -/
structure CheckFailed where
  msg : String
  kind : StatusKind
  deriving DecidableEq, Repr

/-- `check_failed.status`: the status object built from the exception. -/
def CheckFailed.status (c : CheckFailed) : Status := ⟨c.kind, c.msg⟩

/-- A relation databag: a Python dict from string keys to string values. -/
abbrev Record := List (String × String)

/-- Models `str.lower()` on the ASCII databag values handled here. -/
def pyLower (s : String) : String :=
  String.mk (s.data.map fun c =>
    if 'A' ≤ c && c ≤ 'Z' then Char.ofNat (c.toNat + 32) else c)

/-- Python dict subscription `r[k]`: the value, or a KeyError. -/
def recGet (r : Record) (k : String) : Except String String :=
  match r.lookup k with
  | some v => .ok v
  | none => .error ("KeyError: " ++ k)

/-! ## base64 (models Python base64.b64encode on utf-8 encoded values) -/

/-- The standard base64 alphabet, indexed 0..63. -/
def b64Char (n : Nat) : Char :=
  "ABCDEFGHIJKLMNOPQRSTUVWXYZabcdefghijklmnopqrstuvwxyz0123456789+/".data.getD n '='

/-- base64-encode a byte list, three bytes to four output characters,
padding with = as in RFC 4648. -/
def b64Chunks : List Nat → List Char
  | a :: b :: c :: rest =>
      b64Char (a / 4) :: b64Char (a % 4 * 16 + b / 16) ::
        b64Char (b % 16 * 4 + c / 64) :: b64Char (c % 64) :: b64Chunks rest
  | [a, b] => [b64Char (a / 4), b64Char (a % 4 * 16 + b / 16), b64Char (b % 16 * 4), '=']
  | [a] => [b64Char (a / 4), b64Char (a % 4 * 16), '=', '=']
  | [] => []

/-- utf-8 encode one character (models str.encode for one code point). -/
def utf8EncodeChar (c : Char) : List Nat :=
  let n := c.toNat
  if n < 0x80 then [n]
  else if n < 0x800 then [0xC0 + n / 0x40, 0x80 + n % 0x40]
  else if n < 0x10000 then
    [0xE0 + n / 0x1000, 0x80 + n / 0x40 % 0x40, 0x80 + n % 0x40]
  else
    [0xF0 + n / 0x40000, 0x80 + n / 0x1000 % 0x40, 0x80 + n / 0x40 % 0x40, 0x80 + n % 0x40]

/-- utf-8 encode a string to its byte list. -/
def utf8Encode (s : String) : List Nat :=
  (s.data.map utf8EncodeChar).flatten

/-- Models `b64encode(v.encode("utf-8")).decode("utf-8")`. -/
def b64EncodeStr (s : String) : String :=
  String.mk (b64Chunks (utf8Encode s))

/-- Models `_b64_encode_dict`: base64-encode every value of the dict. -/
def b64EncodeDict (d : List (String × String)) : List (String × String) :=
  d.map fun kv => (kv.1, b64EncodeStr kv.2)

/-! ## The S3 bucket-name regex of `validate_s3_bucket_name`

The source regex is
  (?=^.{3,63}$)(?!^(\d+\.)+\d+$)(^(([a-z0-9]|[a-z0-9][a-z0-9\-]*[a-z0-9])\.)*([a-z0-9]|[a-z0-9][a-z0-9\-]*[a-z0-9])$)
used with `re.match`.  In Python, `$` (without MULTILINE) matches at the end
of the string or just before one trailing newline, and `.` matches any
character except a newline; both lookaheads and the main group are anchored
with ^...$, so the whole regex matches exactly when the string, after
discounting at most one trailing newline, (a) is 3 to 63 characters none of
which is a newline, (b) is NOT a dot-separated sequence of two or more
nonempty all-digit groups, and (c) is a dot-separated sequence of segments,
each nonempty, made of lowercase letters, digits and hyphens, neither
starting nor ending with a hyphen.  Since no character class in the pattern
admits a dot, decomposing by dots is the unique parse of the starred groups,
so (b) and (c) are stated via an explicit split on the dot character. -/

/-- Character class [a-z0-9]. -/
def isLowerAlnum (c : Char) : Bool :=
  ('a' ≤ c && c ≤ 'z') || ('0' ≤ c && c ≤ '9')

/-- Character class \d (for this ASCII-only pattern). -/
def isDigitCh (c : Char) : Bool :=
  '0' ≤ c && c ≤ '9'

/-- Split a character list on the dot character; models str.split of a
single-character separator (so "a..b" yields an empty middle group). -/
def splitOnDot : List Char → List (List Char)
  | [] => [[]]
  | c :: rest =>
      let r := splitOnDot rest
      if c = '.' then [] :: r
      else
        match r with
        | g :: gs => (c :: g) :: gs
        | [] => [[c]]

/-- One segment: `[a-z0-9]|[a-z0-9][a-z0-9\-]*[a-z0-9]` — nonempty, chars
in [a-z0-9-], first and last char in [a-z0-9]. -/
def segMatch : List Char → Bool
  | [] => false
  | [c] => isLowerAlnum c
  | c :: d :: rest =>
      isLowerAlnum c
        && ((d :: rest).dropLast.all fun e => isLowerAlnum e || e == '-')
        && isLowerAlnum (rest.getLastD d)

/-- `\d+`: a nonempty all-digit group. -/
def numericGroup (g : List Char) : Bool :=
  !g.isEmpty && g.all isDigitCh

/-- `(\d+\.)+\d+` as a full-string match: two or more dot-separated
nonempty all-digit groups. -/
def dottedNumeric (cs : List Char) : Bool :=
  let gs := splitOnDot cs
  decide (2 ≤ gs.length) && gs.all numericGroup

/-- Python semantics of the trailing `$`: discount one trailing newline. -/
def pyDollarStrip (s : String) : String :=
  if s.data.getLastD ' ' = '\n' then String.mk s.data.dropLast else s

/-- The semantics of the source regex under `re.match` (see the block
comment above for the correspondence, conjunct by conjunct). -/
def s3_regex_match (name : String) : Bool :=
  let cs := (pyDollarStrip name).data
  (decide (3 ≤ cs.length) && decide (cs.length ≤ 63) && cs.all fun c => c != '\n')
    && !dottedNumeric cs
    && (splitOnDot cs).all segMatch

/-- The failure message built by `validate_s3_bucket_name`. -/
def invalidBucketMsg (name : String) : String :=
  "Invalid value for config default_artifact_root \x27" ++ name
    ++ "\x27 - value must be a valid S3 bucket name"

/-- `validate_s3_bucket_name`: returns the name unchanged when the regex
matches, otherwise raises `CheckFailedError(msg, BlockedStatus)`. -/
def validate_s3_bucket_name (name : String) : Except CheckFailed String :=
  if s3_regex_match name then .ok name
  else .error ⟨invalidBucketMsg name, .blocked⟩

/-- The bucket grammar in the words of the specification: 3-63 characters,
lowercase alphanumeric/hyphen/dot segments, and not a dotted-quad IP
(exactly four dot-separated all-numeric groups).  Stated for comparison
with the behaviour of the source regex. -/
def claimBucketGrammar (name : String) : Bool :=
  let cs := name.data
  decide (3 ≤ cs.length) && decide (cs.length ≤ 63)
    && (splitOnDot cs).all segMatch
    && !(decide ((splitOnDot cs).length = 4) && (splitOnDot cs).all numericGroup)

/-! ## Data model of a reconciliation pass -/

/-- The charm configuration keys read by `main`. -/
structure Config where
  default_artifact_root : String
  mlflow_port : Nat
  mlflow_nodeport : Nat
  kubeflow_port : Nat
  kubeflow_nodeport : Nat
  deriving DecidableEq, Repr

/-- The result of `get_interfaces(self)` when it succeeds: the values of
`interfaces["object-storage"].get_data()` in dict order, and whether
`interfaces["ingress"]` is truthy. -/
structure Interfaces where
  objectStorage : List Record
  ingressPresent : Bool
  deriving DecidableEq, Repr

/-- The two failure modes of `get_interfaces`. -/
inductive InterfacesError
  | noVersionsListed (msg : String)
  | noCompatibleVersions (msg : String)
  deriving DecidableEq, Repr

/-- A database relation: its related units with their databags, in the
order produced by `list(mysql.units)`. -/
structure DbRelation where
  units : List Record
  deriving DecidableEq, Repr

deriving instance DecidableEq for Except

/-- Everything `Operator.main` reads from the platform: leadership, the
application name, the configuration, the interface negotiation outcome,
the OCI image fetch outcome (an image-details string, or the message and
status class of the `OCIImageResourceError`), and `model.relations["db"]`. -/
structure CharmState where
  leader : Bool
  appName : String
  config : Config
  interfacesResult : Except InterfacesError Interfaces
  imageResult : Except CheckFailed String
  dbRelations : List DbRelation
  deriving DecidableEq, Repr

/-- The routing record sent by `_configure_mesh` (`pfx` models the key
named p-r-e-f-i-x in the source mapping). -/
structure IngressData where
  pfx : String
  rewrite : String
  service : String
  port : Nat
  deriving DecidableEq, Repr

/-- An env entry of the container: a secret reference or a literal. -/
inductive EnvValue
  | secretRef (name : String)
  | literal (value : String)
  deriving DecidableEq, Repr

/-- A container port entry. -/
structure ContainerPort where
  name : String
  containerPort : Nat
  deriving DecidableEq, Repr

/-- A container entry of the pod spec. -/
structure Container where
  name : String
  imageDetails : String
  ports : List ContainerPort
  args : List String
  envConfig : List (String × EnvValue)
  deriving DecidableEq, Repr

/-- A secret of kubernetesResources. -/
structure SecretSpec where
  name : String
  data : List (String × String)
  deriving DecidableEq, Repr

/-- A service port entry (nodePort is absent for the LoadBalancer). -/
structure ServicePort where
  protocol : String
  port : Nat
  targetPort : Nat
  nodePort : Option Nat
  deriving DecidableEq, Repr

/-- A service of kubernetesResources (`svcType` models the "type" key). -/
structure Service where
  name : String
  svcType : String
  selector : List (String × String)
  ports : List ServicePort
  deriving DecidableEq, Repr

/-- The argument of `self.model.pod.set_spec`. -/
structure PodSpec where
  version : Nat
  containers : List Container
  kubernetesSecrets : List SecretSpec
  services : List Service
  deriving DecidableEq, Repr

/-- The observable outcome of one reconciliation pass: the unit statuses
set, in order; the records sent to the ingress relation; the pod spec
submitted, if any; and the text of an exception escaping `main`, if any. -/
structure MainResult where
  statuses : List Status
  ingressSent : List IngressData
  podSpec : Option PodSpec
  crashed : Option String
  deriving DecidableEq, Repr

/-! ## Credential helpers -/

/-- The plain minio credentials dict of `_minio_credentials_dict`, before
base64 encoding; key lookups in source evaluation order.  `str(x).lower()`
on the already-string-valued databag entry is modelled by toLower. -/
def _minio_credentials_plain (obj : Record) : Except String (List (String × String)) := do
  let service ← recGet obj "service"
  let ns ← recGet obj "namespace"
  let port ← recGet obj "port"
  let accessKey ← recGet obj "access-key"
  let secretKey ← recGet obj "secret-key"
  let secure ← recGet obj "secure"
  .ok [("AWS_ENDPOINT_URL", "http://" ++ service ++ "." ++ ns ++ ":" ++ port),
       ("AWS_ACCESS_KEY_ID", accessKey),
       ("AWS_SECRET_ACCESS_KEY", secretKey),
       ("USE_SSL", pyLower secure)]

/-- `_minio_credentials_dict`: the plain dict, values base64 encoded. -/
def _minio_credentials_dict (obj : Record) : Except String (List (String × String)) :=
  (_minio_credentials_plain obj).map b64EncodeDict

/-- The plain dict of `_seldon_credentials_dict`, before encoding. -/
def _seldon_credentials_plain (obj : Record) : Except String (List (String × String)) := do
  let accessKey ← recGet obj "access-key"
  let secretKey ← recGet obj "secret-key"
  let service ← recGet obj "service"
  let port ← recGet obj "port"
  .ok [("RCLONE_CONFIG_S3_TYPE", "s3"),
       ("RCLONE_CONFIG_S3_PROVIDER", "minio"),
       ("RCLONE_CONFIG_S3_ACCESS_KEY_ID", accessKey),
       ("RCLONE_CONFIG_S3_SECRET_ACCESS_KEY", secretKey),
       ("RCLONE_CONFIG_S3_ENDPOINT", "http://" ++ service ++ ":" ++ port),
       ("RCLONE_CONFIG_S3_ENV_AUTH", "false")]

/-- `_seldon_credentials_dict`: the plain dict, values base64 encoded. -/
def _seldon_credentials_dict (obj : Record) : Except String (List (String × String)) :=
  (_seldon_credentials_plain obj).map b64EncodeDict

/-- The plain dict of `_db_secret_dict`, before encoding; key lookups in
source evaluation order (root_password, host, port, database). -/
def _db_secret_plain (mysql : Record) : Except String (List (String × String)) := do
  let rootPassword ← recGet mysql "root_password"
  let host ← recGet mysql "host"
  let port ← recGet mysql "port"
  let database ← recGet mysql "database"
  .ok [("DB_ROOT_PASSWORD", rootPassword),
       ("MLFLOW_TRACKING_URI",
         "mysql+pymysql://root:" ++ rootPassword ++ "@" ++ host ++ ":" ++ port
           ++ "/" ++ database)]

/-- `_db_secret_dict`: the plain dict, values base64 encoded. -/
def _db_secret_dict (mysql : Record) : Except String (List (String × String)) :=
  (_db_secret_plain mysql).map b64EncodeDict

/-! ## The checks raised as CheckFailedError in the try block of main -/

/-- `_check_leader`: raise Waiting when the unit is not the leader. -/
def _check_leader (s : CharmState) : Except CheckFailed Unit :=
  if s.leader then .ok () else .error ⟨"Waiting for leadership", .waiting⟩

/-- `_get_interfaces`: NoVersionsListed becomes Waiting, NoCompatibleVersions
becomes Blocked. -/
def _get_interfaces (s : CharmState) : Except CheckFailed Interfaces :=
  match s.interfacesResult with
  | .ok i => .ok i
  | .error (.noVersionsListed msg) => .error ⟨msg, .waiting⟩
  | .error (.noCompatibleVersions msg) => .error ⟨msg, .blocked⟩

/-- `_check_image_details`: the fetch outcome passes through, message and
status class taken from the OCIImageResourceError. -/
def _check_image_details (s : CharmState) : Except CheckFailed String :=
  s.imageResult

/-- The try block at the top of `main`: leadership, bucket-name validation,
interface negotiation, image resolution, in source order, short-circuiting
on the first CheckFailedError. -/
def checks (s : CharmState) : Except CheckFailed (String × Interfaces × String) :=
  match _check_leader s with
  | .error cf => .error cf
  | .ok _ =>
    match validate_s3_bucket_name s.config.default_artifact_root with
    | .error cf => .error cf
    | .ok root =>
      match _get_interfaces s with
      | .error cf => .error cf
      | .ok i =>
        match _check_image_details s with
        | .error cf => .error cf
        | .ok image => .ok (root, i, image)

/-- `_configure_mesh`: when the ingress relation is truthy, send the
routing record; otherwise send nothing. -/
def _configure_mesh (s : CharmState) (i : Interfaces) : List IngressData :=
  if i.ingressPresent then
    [⟨"/mlflow/", "/", s.appName, s.config.mlflow_port⟩]
  else []

/-- `mysql = mysql[0]; unit = list(mysql.units)[0]; mysql = mysql.data[unit];
mysql["database"]` — none when an IndexError or the probed KeyError is
raised (both are caught and become the Waiting branch). -/
def dbFirstUnit (dbRels : List DbRelation) : Option Record :=
  match dbRels with
  | [] => none
  | rel :: _ =>
    match rel.units with
    | [] => none
    | u :: _ => if (u.lookup "database").isSome then some u else none

/-- The secrets list built at lines 140-150 of the source, in evaluation
order: minio dict, seldon dict, db dict; a KeyError in any of them escapes
`main` uncaught. -/
def buildSecrets (appName : String) (obj mysql : Record) : Except String (List SecretSpec) :=
  match _minio_credentials_dict obj with
  | .error e => .error e
  | .ok minio =>
    match _seldon_credentials_dict obj with
    | .error e => .error e
    | .ok seldon =>
      match _db_secret_dict mysql with
      | .error e => .error e
      | .ok db =>
        .ok [⟨appName ++ "-minio-secret", minio⟩,
             ⟨appName ++ "-seldon-init-container-s3-credentials", seldon⟩,
             ⟨appName ++ "-db-secret", db⟩]

/-- `"http://{service}.{namespace}:{port}".format(**obj_storage)` — a
missing placeholder key raises a KeyError that escapes `main`. -/
def endpointFromStorage (obj : Record) : Except String String := do
  let service ← recGet obj "service"
  let ns ← recGet obj "namespace"
  let port ← recGet obj "port"
  .ok ("http://" ++ service ++ "." ++ ns ++ ":" ++ port)

/-- The pod spec passed to `set_spec` (lines 152-234 of the source). -/
def mkPodSpec (appName : String) (cfg : Config) (root image endpointUrl : String)
    (secrets : List SecretSpec) : PodSpec :=
  { version := 3
    containers := [
      { name := "mlflow"
        imageDetails := image
        ports := [⟨"http", cfg.mlflow_port⟩]
        args := ["--host", "0.0.0.0", "--backend-store-uri", "$(MLFLOW_TRACKING_URI)",
                 "--default-artifact-root", "s3://" ++ root ++ "/"]
        envConfig := [
          ("db-secret", .secretRef (appName ++ "-db-secret")),
          ("aws-secret", .secretRef (appName ++ "-minio-secret")),
          ("AWS_DEFAULT_REGION", .literal "us-east-1"),
          ("MLFLOW_S3_ENDPOINT_URL", .literal endpointUrl)] }]
    kubernetesSecrets := secrets
    services := [
      ⟨"mlflow-external", "NodePort", [("app.kubernetes.io/name", "mlflow")],
        [⟨"TCP", cfg.mlflow_port, cfg.mlflow_port, some cfg.mlflow_nodeport⟩]⟩,
      ⟨"kubeflow-external", "NodePort", [("app.kubernetes.io/name", "istio-ingressgateway")],
        [⟨"TCP", cfg.kubeflow_port, cfg.kubeflow_port, some cfg.kubeflow_nodeport⟩]⟩,
      ⟨"kubeflow-external-lb", "LoadBalancer", [("app.kubernetes.io/name", "istio-ingressgateway")],
        [⟨"TCP", cfg.kubeflow_port, cfg.kubeflow_port, none⟩]⟩] }

/-- Lines 137-235: Maintenance status, secrets, set_spec, Active status.
A KeyError from the credential dicts or the endpoint format escapes. -/
def specStage (appName : String) (cfg : Config) (root image : String)
    (obj mysql : Record) (sent : List IngressData) : MainResult :=
  match buildSecrets appName obj mysql with
  | .error e => ⟨[⟨.maintenance, "Setting pod spec"⟩], sent, none, some e⟩
  | .ok secrets =>
    match endpointFromStorage obj with
    | .error e => ⟨[⟨.maintenance, "Setting pod spec"⟩], sent, none, some e⟩
    | .ok url =>
      ⟨[⟨.maintenance, "Setting pod spec"⟩, ⟨.active, ""⟩], sent,
        some (mkPodSpec appName cfg root image url secrets), none⟩

/-- Lines 133-135: the object-storage data-readiness check, then on. -/
def storageStage (appName : String) (cfg : Config) (root image : String)
    (objStorage : List Record) (mysql : Record) (sent : List IngressData) : MainResult :=
  match objStorage with
  | [] => ⟨[⟨.waiting, "Waiting for object-storage relation data"⟩], sent, none, none⟩
  | obj :: _ => specStage appName cfg root image obj mysql sent

/-- Lines 119-131: the database relation arity check and the data probe. -/
def dbStage (appName : String) (cfg : Config) (root image : String)
    (i : Interfaces) (dbRels : List DbRelation) (sent : List IngressData) : MainResult :=
  if 1 < dbRels.length then
    ⟨[⟨.blocked, "Too many mysql relations"⟩], sent, none, none⟩
  else
    match dbFirstUnit dbRels with
    | none => ⟨[⟨.waiting, "Waiting for mysql relation data"⟩], sent, none, none⟩
    | some mysql => storageStage appName cfg root image i.objectStorage mysql sent

/-- `Operator.main`: the whole reconciliation pass.  On a CheckFailedError
the failure status is set and the pass returns; otherwise the ingress data
is sent by `_configure_mesh` and the database, object-storage and pod-spec
stages run in source order. -/
def Operator.main (s : CharmState) : MainResult :=
  match checks s with
  | .error cf => ⟨[cf.status], [], none, none⟩
  | .ok (root, i, image) =>
    dbStage s.appName s.config root image i s.dbRelations (_configure_mesh s i)

/-! ## Concrete fixtures used by the end-to-end theorems -/

/-- The configuration of the end-to-end scenario. -/
def goodConfig : Config := ⟨"my-bucket", 5000, 31380, 8080, 30080⟩

/-- The object-storage databag of the end-to-end scenario. -/
def goodObjRecord : Record :=
  [("access-key", "ak"), ("namespace", "ns"), ("port", "9000"),
   ("secret-key", "sk"), ("secure", "false"), ("service", "minio")]

/-- The database databag of the end-to-end scenario. -/
def goodDbRecord : Record :=
  [("database", "mlflow"), ("host", "h"), ("port", "3306"), ("root_password", "pw")]

/-- Leader unit, valid bucket, one complete db relation, one complete
object-storage provider, ingress present, image fetch succeeded. -/
def happyState : CharmState :=
  ⟨true, "mlflow", goodConfig, .ok ⟨[goodObjRecord], true⟩,
   .ok "registrypath/mlflow:1", [⟨[goodDbRecord]⟩]⟩

/-- Same pass but the configured bucket name is too short. -/
def badBucketState : CharmState :=
  { happyState with config := { goodConfig with default_artifact_root := "ab" } }

/-- Same pass but two database relations are present. -/
def twoDbState : CharmState :=
  { happyState with dbRelations := [⟨[goodDbRecord]⟩, ⟨[goodDbRecord]⟩] }

/-- Same pass but the single database unit published only the "database"
key, without root_password, host or port. -/
def incompleteDbState : CharmState :=
  { happyState with dbRelations := [⟨[[("database", "mlflow")]]⟩] }

/-- A second complete object-storage provider databag. -/
def otherObjRecord : Record :=
  [("access-key", "ak2"), ("namespace", "ns2"), ("port", "9001"),
   ("secret-key", "sk2"), ("secure", "false"), ("service", "minio2")]

/-- Same pass but two object-storage providers published data. -/
def twoStorageState : CharmState :=
  { happyState with interfacesResult := .ok ⟨[goodObjRecord, otherObjRecord], true⟩ }

/-- Same pass but the application is named myapp. -/
def myappState : CharmState :=
  { happyState with appName := "myapp" }

/-- Same pass but the unit is not the leader. -/
def notLeaderState : CharmState :=
  { happyState with leader := false }

/-- Same pass but the object-storage relation has published no data. -/
def noStorageState : CharmState :=
  { happyState with interfacesResult := .ok ⟨[], true⟩ }

/-! ## Theorems -/

/-- Claim C1, counterexample: the claim says validation returns the name
unchanged exactly when it is 3-63 characters of lowercase
alphanumeric/hyphen/dot segments and not a dotted-quad IP.  The string
"1.2" satisfies that grammar (two segments, three characters, not a
dotted-quad), yet the source regex rejects it Blocked, because its
negative lookahead excludes every dot-separated all-numeric sequence of
two or more groups, not only dotted-quads. -/
theorem c1_counterexample :
    claimBucketGrammar "1.2" = true ∧
    validate_s3_bucket_name "1.2" = .error ⟨invalidBucketMsg "1.2", .blocked⟩ := by
  decide

/-- Claim C8: for the end-to-end input of the claim (leader, bucket
my-bucket, the given complete db and object-storage databags, image fetch
succeeded), the pass submits a pod spec whose container environment has
MLFLOW_S3_ENDPOINT_URL = http://minio.ns:9000, whose db secret carries
the base64 of mysql+pymysql://root:pw@h:3306/mlflow, and ends Active. -/
theorem c8_end_to_end :
    (Operator.main happyState).statuses
      = [⟨.maintenance, "Setting pod spec"⟩, ⟨.active, ""⟩] ∧
    ((Operator.main happyState).podSpec.map fun d =>
        d.containers.map fun c => c.envConfig.lookup "MLFLOW_S3_ENDPOINT_URL")
      = some [some (EnvValue.literal "http://minio.ns:9000")] ∧
    ((Operator.main happyState).podSpec.map fun d =>
        d.kubernetesSecrets.map fun sec => (sec.name, sec.data.lookup "MLFLOW_TRACKING_URI"))
      = some [("mlflow-minio-secret", none),
              ("mlflow-seldon-init-container-s3-credentials", none),
              ("mlflow-db-secret",
                some (b64EncodeStr "mysql+pymysql://root:pw@h:3306/mlflow"))] ∧
    b64EncodeStr "mysql+pymysql://root:pw@h:3306/mlflow"
      = "bXlzcWwrcHlteXNxbDovL3Jvb3Q6cHdAaDozMzA2L21sZmxvdw==" ∧
    (Operator.main happyState).crashed = none := by
  decide

/-- Claim C4: evaluation at the failing input — one database relation
whose unit databag holds only the "database" key.  The pass reaches the
pod-spec stage (only the "database" key is probed by the readiness check)
and then the KeyError for root_password raised inside `_db_secret_dict`
escapes `main` uncaught: no status conversion, no pod spec. -/
theorem c4_uncaught_keyerror :
    (Operator.main incompleteDbState).crashed = some "KeyError: root_password" ∧
    (Operator.main incompleteDbState).podSpec = none ∧
    (Operator.main incompleteDbState).statuses = [⟨.maintenance, "Setting pod spec"⟩] := by
  decide

/-- Claim C3, counterexample: during the successful end-to-end pass the
unit status is set to Maintenance("Setting pod spec"), which is none of
Waiting, Blocked, Active — refuting that only those three are ever
reported. -/
theorem c3_counterexample :
    (⟨.maintenance, "Setting pod spec"⟩ : Status) ∈ (Operator.main happyState).statuses ∧
    StatusKind.maintenance ≠ .waiting ∧ StatusKind.maintenance ≠ .blocked ∧
    StatusKind.maintenance ≠ .active := by
  decide

/-- Claim C2, counterexample: with the ingress relation present and two
database relations, the pass fails Blocked at the database arity check,
yet the routing descriptor has already been published — refuting that a
pass failing the database arity check publishes no ingress data. -/
theorem c2_counterexample :
    (Operator.main twoDbState).statuses = [⟨.blocked, "Too many mysql relations"⟩] ∧
    (Operator.main twoDbState).ingressSent = [⟨"/mlflow/", "/", "mlflow", 5000⟩] := by
  decide

/-- Claim C6, counterexample: with two object-storage providers having
published data, the pass still proceeds to descriptor assembly (using the
first provider) and submits a pod spec — refuting that any provider count
other than one stops the pass. -/
theorem c6_counterexample :
    twoStorageState.interfacesResult = .ok ⟨[goodObjRecord, otherObjRecord], true⟩ ∧
    (Operator.main twoStorageState).podSpec.isSome = true := by
  decide

/-- Claim C9, counterexample: for application name myapp the submitted
descriptor names its first service with the fixed literal
mlflow-external, not myapp-external as the claim requires. -/
theorem c9_counterexample :
    ((Operator.main myappState).podSpec.map fun d => d.services.map Service.name)
      = some ["mlflow-external", "kubeflow-external", "kubeflow-external-lb"] ∧
    ((Operator.main myappState).podSpec.map fun d => d.services.map Service.name)
      ≠ some ["myapp-external", "kubeflow-external", "kubeflow-external-lb"] := by
  decide

/-- Claim C10, counterexample: two passes with identical Configuration,
Relations and Image Reference but different application names both submit
descriptors, and the descriptors differ (the secret names embed the
application name) — refuting that the descriptor is fully determined by
(Configuration, Relations, Image Reference) alone. -/
theorem c10_counterexample :
    myappState.config = happyState.config ∧
    myappState.interfacesResult = happyState.interfacesResult ∧
    myappState.imageResult = happyState.imageResult ∧
    myappState.dbRelations = happyState.dbRelations ∧
    (Operator.main myappState).podSpec.isSome = true ∧
    (Operator.main happyState).podSpec.isSome = true ∧
    (Operator.main myappState).podSpec ≠ (Operator.main happyState).podSpec := by
  decide

/-! ## Helper lemmas about the stages of the pass -/

/-- The pod-spec stage passes the already-sent ingress data through. -/
theorem specStage_ingress (appName : String) (cfg : Config) (root image : String)
    (obj mysql : Record) (sent : List IngressData) :
    (specStage appName cfg root image obj mysql sent).ingressSent = sent := by
  unfold specStage
  cases buildSecrets appName obj mysql with
  | error e => rfl
  | ok secrets =>
    cases endpointFromStorage obj with
    | error e => rfl
    | ok url => rfl

/-- The object-storage stage passes the ingress data through. -/
theorem storageStage_ingress (appName : String) (cfg : Config) (root image : String)
    (objStorage : List Record) (mysql : Record) (sent : List IngressData) :
    (storageStage appName cfg root image objStorage mysql sent).ingressSent = sent := by
  unfold storageStage
  cases objStorage with
  | nil => rfl
  | cons obj rest => exact specStage_ingress appName cfg root image obj mysql sent

/-- The database, storage and pod-spec stages never touch the ingress data
already sent: every branch passes `sent` through unchanged. -/
theorem dbStage_ingress (appName : String) (cfg : Config) (root image : String)
    (i : Interfaces) (dbRels : List DbRelation) (sent : List IngressData) :
    (dbStage appName cfg root image i dbRels sent).ingressSent = sent := by
  unfold dbStage
  split
  · rfl
  · cases dbFirstUnit dbRels with
    | none => rfl
    | some mysql =>
      exact storageStage_ingress appName cfg root image i.objectStorage mysql sent

/-- `_check_leader` fails only with a Waiting status class. -/
theorem _check_leader_error {s : CharmState} {cf : CheckFailed}
    (h : _check_leader s = .error cf) : cf.kind = .waiting := by
  obtain ⟨m, k⟩ := cf
  unfold _check_leader at h
  split at h <;> simp_all

/-- `validate_s3_bucket_name` fails only with a Blocked status class. -/
theorem validate_error {name : String} {cf : CheckFailed}
    (h : validate_s3_bucket_name name = .error cf) : cf.kind = .blocked := by
  obtain ⟨m, k⟩ := cf
  unfold validate_s3_bucket_name at h
  split at h <;> simp_all

/-- `_get_interfaces` fails only with a Waiting or Blocked status class. -/
theorem _get_interfaces_error {s : CharmState} {cf : CheckFailed}
    (h : _get_interfaces s = .error cf) : cf.kind = .waiting ∨ cf.kind = .blocked := by
  obtain ⟨m, k⟩ := cf
  unfold _get_interfaces at h
  cases hir : s.interfacesResult with
  | error e => cases e <;> rw [hir] at h <;> simp_all
  | ok i => rw [hir] at h; simp_all

/-- Provenance of a CheckFailedError from the try block: it carries
Waiting or Blocked, unless it is the pass-through image fetch error. -/
theorem checks_error_kind {s : CharmState} {cf : CheckFailed}
    (h : checks s = .error cf) :
    cf.kind = .waiting ∨ cf.kind = .blocked ∨ s.imageResult = .error cf := by
  unfold checks at h
  cases hle : _check_leader s with
  | error c =>
    rw [hle] at h; simp at h; subst h
    exact .inl (_check_leader_error hle)
  | ok u =>
    rw [hle] at h
    cases hv : validate_s3_bucket_name s.config.default_artifact_root with
    | error c =>
      rw [hv] at h; simp at h; subst h
      exact .inr (.inl (validate_error hv))
    | ok root =>
      rw [hv] at h
      cases hi : _get_interfaces s with
      | error c =>
        rw [hi] at h; simp at h; subst h
        exact (_get_interfaces_error hi).imp id .inl
      | ok i =>
        rw [hi] at h
        cases him : _check_image_details s with
        | error c =>
          rw [him] at h; simp at h; subst h
          exact .inr (.inr him)
        | ok image => rw [him] at h; simp at h

/-- Inversion of a successful try block: the unit was leader, the bucket
name was returned unchanged by validation, and the interfaces and image
came from their collaborators. -/
theorem checks_ok_inv {s : CharmState} {root : String} {i : Interfaces} {image : String}
    (h : checks s = .ok (root, i, image)) :
    s.leader = true ∧ root = s.config.default_artifact_root ∧
      s.interfacesResult = .ok i ∧ s.imageResult = .ok image := by
  unfold checks at h
  cases hle : _check_leader s with
  | error c => rw [hle] at h; simp at h
  | ok u =>
    rw [hle] at h
    cases hv : validate_s3_bucket_name s.config.default_artifact_root with
    | error c => rw [hv] at h; simp at h
    | ok r =>
      rw [hv] at h
      cases hi : _get_interfaces s with
      | error c => rw [hi] at h; simp at h
      | ok i2 =>
        rw [hi] at h
        cases him : _check_image_details s with
        | error c => rw [him] at h; simp at h
        | ok im =>
          rw [him] at h
          simp at h
          obtain ⟨hr, hi2, him2⟩ := h
          subst hr; subst hi2; subst him2
          refine ⟨?_, ?_, ?_, him⟩
          · unfold _check_leader at hle
            split at hle
            · assumption
            · simp_all
          · unfold validate_s3_bucket_name at hv
            split at hv <;> simp_all
          · unfold _get_interfaces at hi
            cases hir : s.interfacesResult with
            | error e => cases e <;> rw [hir] at hi <;> simp_all
            | ok i3 => rw [hir] at hi; simp_all

/-- Claim C7: a pass on a non-leader unit sets exactly the Waiting
leadership status and performs nothing else: no ingress data, no pod
spec, no escaped exception. -/
theorem c7_not_leader (s : CharmState) (h : s.leader = false) :
    Operator.main s = ⟨[⟨.waiting, "Waiting for leadership"⟩], [], none, none⟩ := by
  simp [Operator.main, checks, _check_leader, h, CheckFailed.status]

/-- Claim C7, witness at a concrete non-leader pass. -/
theorem c7_witness :
    Operator.main notLeaderState
      = ⟨[⟨.waiting, "Waiting for leadership"⟩], [], none, none⟩ :=
  c7_not_leader notLeaderState rfl

/-- Claim C1 (amended): validation returns the name unchanged exactly when
the source regex accepts it — that is, when the name, after discounting at
most one trailing newline, is 3-63 characters of dot-separated segments of
lowercase alphanumerics and hyphens (segments nonempty, not starting or
ending with a hyphen) and is not a dot-separated sequence of two or more
all-numeric groups; every other string makes the pass fail Blocked.  In
particular my-bucket.name1 is accepted and ab, 192.168.1.1 and MyBucket
are rejected. -/
theorem c1_bucket_validation (name : String) (s : CharmState) :
    (s3_regex_match name = true → validate_s3_bucket_name name = .ok name) ∧
    (s3_regex_match name = false →
      validate_s3_bucket_name name = .error ⟨invalidBucketMsg name, .blocked⟩) ∧
    (s.leader = true → s3_regex_match s.config.default_artifact_root = false →
      Operator.main s =
        ⟨[⟨.blocked, invalidBucketMsg s.config.default_artifact_root⟩], [], none, none⟩) ∧
    s3_regex_match "my-bucket.name1" = true ∧
    s3_regex_match "ab" = false ∧
    s3_regex_match "192.168.1.1" = false ∧
    s3_regex_match "MyBucket" = false := by
  refine ⟨?_, ?_, ?_, by decide, by decide, by decide, by decide⟩
  · intro h; simp [validate_s3_bucket_name, h]
  · intro h; simp [validate_s3_bucket_name, h]
  · intro hl hb
    simp [Operator.main, checks, _check_leader, hl, validate_s3_bucket_name, hb,
      CheckFailed.status]

/-- Claim C1, witness: the validator accepts my-bucket.name1 unchanged,
and a leader pass configured with the too-short bucket name ab fails
Blocked with the invalid-bucket message. -/
theorem c1_witness :
    validate_s3_bucket_name "my-bucket.name1" = .ok "my-bucket.name1" ∧
    Operator.main badBucketState
      = ⟨[⟨.blocked, invalidBucketMsg "ab"⟩], [], none, none⟩ :=
  ⟨(c1_bucket_validation "my-bucket.name1" badBucketState).1 (by decide),
   (c1_bucket_validation "ab" badBucketState).2.2.1 (by decide) (by decide)⟩

/-- Claim C2 (amended): the routing descriptor is published exactly once
per pass whenever the ingress relation is present and the four try-block
checks (leadership, bucket validation, interface negotiation, image
resolution) succeed — this happens before the database and
object-storage checks, so a pass failing those still publishes; a pass
failing one of the four try-block checks publishes nothing. -/
theorem c2_ingress_publication (s : CharmState) :
    (∀ cf, checks s = .error cf → (Operator.main s).ingressSent = []) ∧
    (∀ root i image, checks s = .ok (root, i, image) →
      (Operator.main s).ingressSent = _configure_mesh s i) ∧
    (∀ i : Interfaces, i.ingressPresent = true →
      _configure_mesh s i = [⟨"/mlflow/", "/", s.appName, s.config.mlflow_port⟩]) ∧
    (∀ i : Interfaces, i.ingressPresent = false → _configure_mesh s i = []) := by
  refine ⟨?_, ?_, ?_, ?_⟩
  · intro cf h; simp [Operator.main, h]
  · intro root i image h; simp [Operator.main, h, dbStage_ingress]
  · intro i h; simp [_configure_mesh, h]
  · intro i h; simp [_configure_mesh, h]

/-- Claim C2, witness: the end-to-end pass publishes the routing
descriptor exactly once. -/
theorem c2_witness :
    (Operator.main happyState).ingressSent = [⟨"/mlflow/", "/", "mlflow", 5000⟩] := by
  have h := (c2_ingress_publication happyState).2.1 "my-bucket" ⟨[goodObjRecord], true⟩
    "registrypath/mlflow:1" (by decide)
  rw [h]
  exact (c2_ingress_publication happyState).2.2.1 ⟨[goodObjRecord], true⟩ rfl

/-! ## Inversion of a submitted pod spec -/

/-- Inversion of the pod-spec stage: a submitted spec means both secret
building and the endpoint format succeeded, and the spec is `mkPodSpec`. -/
theorem specStage_podSpec_some {appName : String} {cfg : Config} {root image : String}
    {obj mysql : Record} {sent : List IngressData} {d : PodSpec}
    (h : (specStage appName cfg root image obj mysql sent).podSpec = some d) :
    ∃ secrets url, buildSecrets appName obj mysql = .ok secrets ∧
      endpointFromStorage obj = .ok url ∧
      d = mkPodSpec appName cfg root image url secrets := by
  unfold specStage at h
  cases hbs : buildSecrets appName obj mysql with
  | error e => rw [hbs] at h; simp at h
  | ok secrets =>
    rw [hbs] at h
    cases hep : endpointFromStorage obj with
    | error e => rw [hep] at h; simp at h
    | ok url =>
      rw [hep] at h
      simp at h
      exact ⟨secrets, url, rfl, rfl, h.symm⟩

/-- Inversion of the object-storage stage: a submitted spec means at least
one provider record was present and the first one was used. -/
theorem storageStage_podSpec_some {appName : String} {cfg : Config} {root image : String}
    {objStorage : List Record} {mysql : Record} {sent : List IngressData} {d : PodSpec}
    (h : (storageStage appName cfg root image objStorage mysql sent).podSpec = some d) :
    ∃ obj rest, objStorage = obj :: rest ∧
      ∃ secrets url, buildSecrets appName obj mysql = .ok secrets ∧
        endpointFromStorage obj = .ok url ∧
        d = mkPodSpec appName cfg root image url secrets := by
  unfold storageStage at h
  cases objStorage with
  | nil => simp at h
  | cons obj rest => exact ⟨obj, rest, rfl, specStage_podSpec_some h⟩

/-- Inversion of the database stage: a submitted spec means at most one
database relation whose first unit passed the data probe. -/
theorem dbStage_podSpec_some {appName : String} {cfg : Config} {root image : String}
    {i : Interfaces} {dbRels : List DbRelation} {sent : List IngressData} {d : PodSpec}
    (h : (dbStage appName cfg root image i dbRels sent).podSpec = some d) :
    dbRels.length ≤ 1 ∧ ∃ mysql, dbFirstUnit dbRels = some mysql ∧
      ∃ obj rest, i.objectStorage = obj :: rest ∧
        ∃ secrets url, buildSecrets appName obj mysql = .ok secrets ∧
          endpointFromStorage obj = .ok url ∧
          d = mkPodSpec appName cfg root image url secrets := by
  unfold dbStage at h
  split at h
  · simp at h
  · next hlen =>
    refine ⟨by omega, ?_⟩
    cases hdb : dbFirstUnit dbRels with
    | none => rw [hdb] at h; simp at h
    | some mysql =>
      rw [hdb] at h
      exact ⟨mysql, rfl, storageStage_podSpec_some h⟩

/-- Inversion of the whole pass: a submitted pod spec pins down every
stage outcome and exhibits the spec as `mkPodSpec` of the stage data. -/
theorem main_podSpec_some {s : CharmState} {d : PodSpec}
    (h : (Operator.main s).podSpec = some d) :
    ∃ root i image, checks s = .ok (root, i, image) ∧
      s.dbRelations.length ≤ 1 ∧
      ∃ mysql, dbFirstUnit s.dbRelations = some mysql ∧
        ∃ obj rest, i.objectStorage = obj :: rest ∧
          ∃ secrets url, buildSecrets s.appName obj mysql = .ok secrets ∧
            endpointFromStorage obj = .ok url ∧
            d = mkPodSpec s.appName s.config root image url secrets := by
  unfold Operator.main at h
  cases hc : checks s with
  | error cf => rw [hc] at h; simp at h
  | ok trip =>
    obtain ⟨root, i, image⟩ := trip
    rw [hc] at h
    exact ⟨root, i, image, rfl, dbStage_podSpec_some h⟩

/-! ## Which status kinds the stages can report -/

/-- The pod-spec stage reports only Maintenance and Active statuses. -/
theorem specStage_status_kinds (appName : String) (cfg : Config) (root image : String)
    (obj mysql : Record) (sent : List IngressData) :
    ∀ st ∈ (specStage appName cfg root image obj mysql sent).statuses,
      st.kind = .waiting ∨ st.kind = .blocked ∨ st.kind = .maintenance ∨ st.kind = .active := by
  unfold specStage
  cases buildSecrets appName obj mysql with
  | error e => intro st hst; simp at hst; subst hst; simp
  | ok secrets =>
    cases endpointFromStorage obj with
    | error e => intro st hst; simp at hst; subst hst; simp
    | ok url =>
      intro st hst
      simp at hst
      rcases hst with h | h <;> subst h <;> simp

/-- The object-storage stage reports only the four charm status kinds. -/
theorem storageStage_status_kinds (appName : String) (cfg : Config) (root image : String)
    (objStorage : List Record) (mysql : Record) (sent : List IngressData) :
    ∀ st ∈ (storageStage appName cfg root image objStorage mysql sent).statuses,
      st.kind = .waiting ∨ st.kind = .blocked ∨ st.kind = .maintenance ∨ st.kind = .active := by
  unfold storageStage
  cases objStorage with
  | nil => intro st hst; simp at hst; subst hst; simp
  | cons obj rest => exact specStage_status_kinds appName cfg root image obj mysql sent

/-- The database stage reports only the four charm status kinds. -/
theorem dbStage_status_kinds (appName : String) (cfg : Config) (root image : String)
    (i : Interfaces) (dbRels : List DbRelation) (sent : List IngressData) :
    ∀ st ∈ (dbStage appName cfg root image i dbRels sent).statuses,
      st.kind = .waiting ∨ st.kind = .blocked ∨ st.kind = .maintenance ∨ st.kind = .active := by
  unfold dbStage
  split
  · intro st hst; simp at hst; subst hst; simp
  · cases dbFirstUnit dbRels with
    | none => intro st hst; simp at hst; subst hst; simp
    | some mysql => exact storageStage_status_kinds appName cfg root image i.objectStorage mysql sent

/-- Claim C3 (amended): provided the image fetch collaborator fails only
with Waiting or Blocked severities (the pass-through severities of the
spec), every unit status reported during a pass is one of Waiting,
Blocked, Maintenance, Active — Maintenance occurring transiently as
"Setting pod spec" — and never Unknown or Error. -/
theorem c3_status_taxonomy (s : CharmState)
    (himg : ∀ cf, s.imageResult = .error cf → cf.kind = .waiting ∨ cf.kind = .blocked) :
    ∀ st ∈ (Operator.main s).statuses,
      st.kind = .waiting ∨ st.kind = .blocked ∨ st.kind = .maintenance ∨ st.kind = .active := by
  unfold Operator.main
  cases hc : checks s with
  | error cf =>
    intro st hst
    simp at hst
    subst hst
    have hk : cf.kind = .waiting ∨ cf.kind = .blocked := by
      rcases checks_error_kind hc with h | h | h
      · exact .inl h
      · exact .inr h
      · exact himg cf h
    simp [CheckFailed.status]
    rcases hk with h | h
    · exact .inl h
    · exact .inr (.inl h)
  | ok trip =>
    obtain ⟨root, i, image⟩ := trip
    exact dbStage_status_kinds s.appName s.config root image i s.dbRelations
      (_configure_mesh s i)

/-- Claim C3, witness: the Active status of the end-to-end pass, through
the taxonomy theorem. -/
theorem c3_witness :
    (⟨StatusKind.active, ""⟩ : Status).kind = .waiting ∨
    (⟨StatusKind.active, ""⟩ : Status).kind = .blocked ∨
    (⟨StatusKind.active, ""⟩ : Status).kind = .maintenance ∨
    (⟨StatusKind.active, ""⟩ : Status).kind = .active :=
  c3_status_taxonomy happyState (fun cf h => by simp [happyState] at h)
    ⟨StatusKind.active, ""⟩ (by decide)

/-- Claim C5: in a pass whose try-block checks succeeded, zero database
relations fail Waiting; two or more fail Blocked; exactly one whose first
unit published the complete connection record proceeds past the database
checks into the object-storage stage. -/
theorem c5_db_relation_arity (s : CharmState) (root : String) (i : Interfaces) (image : String)
    (h : checks s = .ok (root, i, image)) :
    (s.dbRelations = [] →
      Operator.main s = ⟨[⟨.waiting, "Waiting for mysql relation data"⟩],
        _configure_mesh s i, none, none⟩) ∧
    (2 ≤ s.dbRelations.length →
      Operator.main s = ⟨[⟨.blocked, "Too many mysql relations"⟩],
        _configure_mesh s i, none, none⟩) ∧
    (∀ rel u rest, s.dbRelations = [rel] → rel.units = u :: rest →
      (u.lookup "root_password").isSome = true → (u.lookup "host").isSome = true →
      (u.lookup "port").isSome = true → (u.lookup "database").isSome = true →
      Operator.main s = storageStage s.appName s.config root image i.objectStorage u
        (_configure_mesh s i)) := by
  refine ⟨?_, ?_, ?_⟩
  · intro hdb
    simp [Operator.main, h, dbStage, hdb, dbFirstUnit]
  · intro hdb
    have hlt : 1 < s.dbRelations.length := by omega
    simp [Operator.main, h, dbStage, hlt]
  · intro rel u rest hrel hu hrp hh hp hd
    simp [Operator.main, h, dbStage, hrel, dbFirstUnit, hu, hd]

/-- Claim C5, witness: the end-to-end pass proceeds past the database
checks into the object-storage stage. -/
theorem c5_witness :
    Operator.main happyState = storageStage "mlflow" goodConfig "my-bucket"
      "registrypath/mlflow:1" [goodObjRecord] goodDbRecord
      [⟨"/mlflow/", "/", "mlflow", 5000⟩] := by
  have h := (c5_db_relation_arity happyState "my-bucket" ⟨[goodObjRecord], true⟩
      "registrypath/mlflow:1" (by decide)).2.2 ⟨[goodDbRecord]⟩ goodDbRecord []
      rfl rfl (by decide) (by decide) (by decide) (by decide)
  exact h.trans (by decide)

/-- Claim C6 (amended): with no published object-storage data the pass
(after the try-block and database checks) fails Waiting; and a submitted
pod spec requires at least one object-storage provider record (the first
is used) and at most one database relation — but two or more providers do
NOT stop the pass. -/
theorem c6_storage_arity (s : CharmState) :
    (∀ root i image, checks s = .ok (root, i, image) → i.objectStorage = [] →
      s.dbRelations.length ≤ 1 →
      ∀ mysql, dbFirstUnit s.dbRelations = some mysql →
      Operator.main s = ⟨[⟨.waiting, "Waiting for object-storage relation data"⟩],
        _configure_mesh s i, none, none⟩) ∧
    (∀ d, (Operator.main s).podSpec = some d →
      s.dbRelations.length ≤ 1 ∧
      ∃ i obj rest, s.interfacesResult = .ok i ∧ i.objectStorage = obj :: rest) := by
  refine ⟨?_, ?_⟩
  · intro root i image h hos hlen mysql hdb
    have hlt : ¬ 1 < s.dbRelations.length := by omega
    simp [Operator.main, h, dbStage, hlt, hdb, storageStage, hos]
  · intro d h
    obtain ⟨root, i, image, hc, hlen, mysql, hdb, obj, rest, hos, -⟩ := main_podSpec_some h
    exact ⟨hlen, i, obj, rest, (checks_ok_inv hc).2.2.1, hos⟩

/-- Claim C6, witness: a pass with an object-storage relation that
published no data fails Waiting after publishing the ingress data. -/
theorem c6_witness :
    Operator.main noStorageState
      = ⟨[⟨.waiting, "Waiting for object-storage relation data"⟩],
         [⟨"/mlflow/", "/", "mlflow", 5000⟩], none, none⟩ := by
  have h := (c6_storage_arity noStorageState).1 "my-bucket" ⟨[], true⟩
    "registrypath/mlflow:1" (by decide) rfl (by decide) goodDbRecord (by decide)
  exact h.trans (by decide)

/-- Every value of a `_b64_encode_dict` output is a base64 encoding. -/
theorem b64EncodeDict_values {l : List (String × String)} :
    ∀ kv ∈ b64EncodeDict l, ∃ p, kv.2 = b64EncodeStr p := by
  intro kv hkv
  unfold b64EncodeDict at hkv
  simp at hkv
  obtain ⟨a, b, hab, rfl⟩ := hkv
  exact ⟨b, rfl⟩

/-- Inversion of `Except.map`: a mapped success comes from a success. -/
theorem exceptMap_ok {ε α β : Type} {f : α → β} {x : Except ε α} {b : β}
    (h : x.map f = .ok b) : ∃ a, x = .ok a ∧ b = f a := by
  cases x with
  | error e => simp [Except.map] at h
  | ok a =>
    simp [Except.map] at h
    exact ⟨a, rfl, h.symm⟩

/-- Inversion of `buildSecrets`: the three credential dicts succeeded and
the secrets list is the three named entries built from them. -/
theorem buildSecrets_ok {appName : String} {obj mysql : Record} {secrets : List SecretSpec}
    (h : buildSecrets appName obj mysql = .ok secrets) :
    ∃ minio seldon db, _minio_credentials_dict obj = .ok minio ∧
      _seldon_credentials_dict obj = .ok seldon ∧ _db_secret_dict mysql = .ok db ∧
      secrets = [⟨appName ++ "-minio-secret", minio⟩,
                 ⟨appName ++ "-seldon-init-container-s3-credentials", seldon⟩,
                 ⟨appName ++ "-db-secret", db⟩] := by
  unfold buildSecrets at h
  cases hm : _minio_credentials_dict obj with
  | error e => rw [hm] at h; simp at h
  | ok minio =>
    rw [hm] at h
    cases hsel : _seldon_credentials_dict obj with
    | error e => rw [hsel] at h; simp at h
    | ok seldon =>
      rw [hsel] at h
      cases hd : _db_secret_dict mysql with
      | error e => rw [hd] at h; simp at h
      | ok db =>
        rw [hd] at h
        simp at h
        exact ⟨minio, seldon, db, rfl, rfl, rfl, h.symm⟩

/-- Every value of every secret built by `buildSecrets` is base64. -/
theorem buildSecrets_values {appName : String} {obj mysql : Record} {secrets : List SecretSpec}
    (h : buildSecrets appName obj mysql = .ok secrets) :
    ∀ sec ∈ secrets, ∀ kv ∈ sec.data, ∃ p, kv.2 = b64EncodeStr p := by
  obtain ⟨minio, seldon, db, hm, hsel, hd, rfl⟩ := buildSecrets_ok h
  intro sec hsec kv hkv
  simp at hsec
  rcases hsec with h1 | h1 | h1 <;> subst h1
  · obtain ⟨l, -, rfl⟩ := exceptMap_ok hm
    exact b64EncodeDict_values kv hkv
  · obtain ⟨l, -, rfl⟩ := exceptMap_ok hsel
    exact b64EncodeDict_values kv hkv
  · obtain ⟨l, -, rfl⟩ := exceptMap_ok hd
    exact b64EncodeDict_values kv hkv

/-- Claim C9 (amended): every submitted pod spec has exactly one container
with the single named http port on mlflow_port, env bindings referencing
the secrets app-db-secret and app-minio-secret plus the literals
AWS_DEFAULT_REGION=us-east-1 and MLFLOW_S3_ENDPOINT_URL, three
base64-value-encoded secrets named after the application, and exactly
three services — the first named by the fixed literal mlflow-external
(NOT after the application), then kubeflow-external and
kubeflow-external-lb, with the configured ports. -/
theorem c9_descriptor_shape (s : CharmState) (d : PodSpec)
    (h : (Operator.main s).podSpec = some d) :
    d.containers.map (fun c => (c.name, c.ports))
      = [("mlflow", [⟨"http", s.config.mlflow_port⟩])] ∧
    (∀ c ∈ d.containers,
      c.envConfig.lookup "db-secret"
          = some (.secretRef (s.appName ++ "-db-secret")) ∧
      c.envConfig.lookup "aws-secret"
          = some (.secretRef (s.appName ++ "-minio-secret")) ∧
      c.envConfig.lookup "AWS_DEFAULT_REGION" = some (.literal "us-east-1") ∧
      ∃ u, c.envConfig.lookup "MLFLOW_S3_ENDPOINT_URL" = some (.literal u)) ∧
    d.kubernetesSecrets.map SecretSpec.name
      = [s.appName ++ "-minio-secret",
         s.appName ++ "-seldon-init-container-s3-credentials",
         s.appName ++ "-db-secret"] ∧
    (∀ sec ∈ d.kubernetesSecrets, ∀ kv ∈ sec.data, ∃ p, kv.2 = b64EncodeStr p) ∧
    d.services.map (fun v => (v.name, v.svcType, v.ports))
      = [("mlflow-external", "NodePort",
           [⟨"TCP", s.config.mlflow_port, s.config.mlflow_port,
             some s.config.mlflow_nodeport⟩]),
         ("kubeflow-external", "NodePort",
           [⟨"TCP", s.config.kubeflow_port, s.config.kubeflow_port,
             some s.config.kubeflow_nodeport⟩]),
         ("kubeflow-external-lb", "LoadBalancer",
           [⟨"TCP", s.config.kubeflow_port, s.config.kubeflow_port, none⟩])] := by
  obtain ⟨root, i, image, hc, hlen, mysql, hdb, obj, rest, hos, secrets, url, hbs, hep, rfl⟩ :=
    main_podSpec_some h
  refine ⟨rfl, ?_, ?_, ?_, rfl⟩
  · intro c hcc
    simp [mkPodSpec] at hcc
    subst hcc
    exact ⟨rfl, rfl, rfl, url, rfl⟩
  · obtain ⟨minio, seldon, db, hm, hsel, hd, rfl⟩ := buildSecrets_ok hbs
    rfl
  · exact fun sec hsec kv hkv => buildSecrets_values hbs sec hsec kv hkv

/-- The service triple view of a pass result, used by the C9 witness. -/
def svcShape (r : MainResult) : Option (List (String × String × List ServicePort)) :=
  r.podSpec.map fun d => d.services.map fun v => (v.name, v.svcType, v.ports)

/-- Claim C9, witness: the services of the end-to-end pass, through the
shape theorem. -/
theorem c9_witness :
    svcShape (Operator.main happyState)
      = some [("mlflow-external", "NodePort", [⟨"TCP", 5000, 5000, some 31380⟩]),
              ("kubeflow-external", "NodePort", [⟨"TCP", 8080, 8080, some 30080⟩]),
              ("kubeflow-external-lb", "LoadBalancer", [⟨"TCP", 8080, 8080, none⟩])] := by
  have hs : (Operator.main happyState).podSpec.isSome = true := by decide
  have h : (Operator.main happyState).podSpec
      = some ((Operator.main happyState).podSpec.get hs) := (Option.some_get hs).symm
  have shape := c9_descriptor_shape happyState _ h
  unfold svcShape
  rw [h, Option.map_some']
  exact congrArg some (shape.2.2.2.2.trans (by decide))

/-- Claim C10 (amended): the submitted pod spec is fully determined by the
Configuration, the Relations (interfaces and database relations), the
Image Reference AND the application name: two passes agreeing on those
five inputs that both submit a spec submit the same spec. -/
theorem c10_determinism (s1 s2 : CharmState) (d1 d2 : PodSpec)
    (hcfg : s1.config = s2.config) (happ : s1.appName = s2.appName)
    (hif : s1.interfacesResult = s2.interfacesResult)
    (him : s1.imageResult = s2.imageResult)
    (hdbr : s1.dbRelations = s2.dbRelations)
    (h1 : (Operator.main s1).podSpec = some d1)
    (h2 : (Operator.main s2).podSpec = some d2) : d1 = d2 := by
  obtain ⟨r1, i1, im1, hc1, hl1, my1, hdb1, ob1, re1, hos1, se1, u1, hbs1, hep1, hd1⟩ :=
    main_podSpec_some h1
  obtain ⟨r2, i2, im2, hc2, hl2, my2, hdb2, ob2, re2, hos2, se2, u2, hbs2, hep2, hd2⟩ :=
    main_podSpec_some h2
  obtain ⟨-, hr1, hi1, him1⟩ := checks_ok_inv hc1
  obtain ⟨-, hr2, hi2, him2⟩ := checks_ok_inv hc2
  have hii : i1 = i2 := Except.ok.inj (hi1.symm.trans (hif.trans hi2))
  have himim : im1 = im2 := Except.ok.inj (him1.symm.trans (him.trans him2))
  have hrr : r1 = r2 := by rw [hr1, hr2, hcfg]
  have hmy : my1 = my2 := by
    rw [hdbr] at hdb1
    exact Option.some.inj (hdb1.symm.trans hdb2)
  have hob : ob1 = ob2 := by
    rw [hii] at hos1
    exact (List.cons.inj (hos1.symm.trans hos2)).1
  have hse : se1 = se2 := by
    rw [happ, hob, hmy] at hbs1
    exact Except.ok.inj (hbs1.symm.trans hbs2)
  have huu : u1 = u2 := by
    rw [hob] at hep1
    exact Except.ok.inj (hep1.symm.trans hep2)
  rw [hd1, hd2, happ, hcfg, hrr, himim, huu, hse]

/-- A second pass built from the same Configuration, Relations, Image
Reference and application name as `happyState`, written out afresh. -/
def happyStateCopy : CharmState :=
  ⟨true, "mlflow", ⟨"my-bucket", 5000, 31380, 8080, 30080⟩,
   .ok ⟨[goodObjRecord], true⟩, .ok "registrypath/mlflow:1", [⟨[goodDbRecord]⟩]⟩

/-- Claim C10, witness: two passes over identical inputs submit the same
pod spec. -/
theorem c10_witness :
    (Operator.main happyState).podSpec.get (by decide)
      = (Operator.main happyStateCopy).podSpec.get (by decide) := by
  have hs1 : (Operator.main happyState).podSpec.isSome = true := by decide
  have hs2 : (Operator.main happyStateCopy).podSpec.isSome = true := by decide
  exact c10_determinism happyState happyStateCopy _ _ rfl rfl rfl rfl rfl
    (Option.some_get hs1).symm (Option.some_get hs2).symm
